import Mathlib

/-!
Shallow embedding of the product-qualification repository
(src/product_qualification.py, src/models.py) and proofs of the frozen
claims about it.

Numbers are modelled as rationals; dates are modelled as integer day
counts; nullable columns are Option-valued.  Polars rolling aggregates
use min_periods = window_size, so an aggregate at row i is null when the
trailing window has fewer than window_size non-null values; the boolean
conjunction is Kleene three-valued logic, and fill_null(False) collapses
null to false at the end.
-/

namespace PQ

/-- A polars dtype, as far as the claims need to distinguish them.
`boolean` is the nullable polars Boolean dtype. -/
inductive Dtype where
  | boolean
  | int32
  | int64
  | float64
  | date
  | other
deriving DecidableEq, Repr

/-- One row of the input panel.  Required columns `date` and `launch_date`
are dates (integer day counts, non-null per the data model); the numeric
columns are nullable.  `is_stockout` and `markdown_pct` hold the values of
the optional columns; they are meaningful only when the corresponding
column name is present in the panel schema. -/
structure Row where
  date : Int
  sales : Option ℚ
  launch_date : Int
  margin : Option ℚ
  inventory : Option ℚ
  current_price : Option ℚ
  cost : Option ℚ
  is_stockout : Option ℚ
  markdown_pct : Option ℚ
deriving DecidableEq, Repr

instance : Inhabited Row :=
  ⟨⟨0, none, 0, none, none, none, none, none, none⟩⟩

/-- The input table: a schema (ordered column names with dtypes) and rows. -/
structure RawPanel where
  schema : List (String × Dtype)
  rows : List Row
deriving DecidableEq, Repr

/-- Column names of the panel, `df.columns`. -/
def RawPanel.colNames (p : RawPanel) : List String := p.schema.map Prod.fst

/-- Row access by position (only used at in-range indices). -/
def RawPanel.row (p : RawPanel) (i : Nat) : Row := p.rows.getD i default

/-- The argument of `should_forecast_product`: either a DataFrame or some
other Python value (which fails the isinstance check). -/
inductive Input where
  | dataframe (p : RawPanel)
  | notDataframe
deriving DecidableEq, Repr

/-- Errors raised by `should_forecast_product`: `typeError` when the input
is not a DataFrame, `valueError` (the SchemaError of the spec taxonomy)
carrying the missing required columns. -/
inductive QError where
  | typeError
  | valueError (missing : List String)
deriving DecidableEq, Repr

/-- The keyword arguments of `should_forecast_product` with their defaults. -/
structure Config where
  min_recent_sales_days : Int := 7
  max_stockout_rate : ℚ := 1/2
  min_margin : ℚ := 0
  min_data_quality_pct : ℚ := 9/10
  max_inventory_age_days : Int := 180
  history_window : Nat := 28
deriving DecidableEq, Repr

/-- The values a polars rolling window of size N sees at row i: positions
i+1-N .. i of the column (out of range only when i+1 < N, which the
callers guard). -/
def windowVals (N : Nat) (col : Nat → Option ℚ) (i : Nat) : List (Option ℚ) :=
  (List.range N).map (fun j => col (i + 1 - N + j))

/-- Polars rolling_sum with window_size = N and the default
min_periods = N: null when fewer than N rows are available or any value
in the window is null, else the sum over exactly the last N values. -/
def rollingSumAt (N : Nat) (col : Nat → Option ℚ) (i : Nat) : Option ℚ :=
  if i + 1 < N then none
  else if (windowVals N col i).all Option.isSome then
    some ((windowVals N col i).filterMap id).sum
  else none

/-- Polars rolling_mean with window_size = N and the default
min_periods = N. -/
def rollingMeanAt (N : Nat) (col : Nat → Option ℚ) (i : Nat) : Option ℚ :=
  (rollingSumAt N col i).map (fun s => s / (N : ℚ))

/-- Polars min_horizontal: minimum of the non-null entries, null when all
entries are null. -/
def minHorizontal (xs : List (Option ℚ)) : Option ℚ :=
  xs.foldl
    (fun acc x =>
      match acc, x with
      | none, x => x
      | some a, none => some a
      | some a, some b => some (min a b))
    none

/-- Comparison `x >= t` on a nullable column: null propagates. -/
def optGe (x : Option ℚ) (t : ℚ) : Option Bool :=
  x.map (fun v => decide (t ≤ v))

/-- Comparison `x <= t` on a nullable column: null propagates. -/
def optLe (x : Option ℚ) (t : ℚ) : Option Bool :=
  x.map (fun v => decide (v ≤ t))

/-- Polars three-valued (Kleene) boolean AND. -/
def kand : Option Bool → Option Bool → Option Bool
  | some false, _ => some false
  | _, some false => some false
  | some true, some true => some true
  | _, _ => none

/-- Polars three-valued (Kleene) boolean OR. -/
def kor : Option Bool → Option Bool → Option Bool
  | some true, _ => some true
  | _, some true => some true
  | some false, some false => some false
  | _, _ => none

/-- Null-indicator used by the data-quality criterion:
`is_not_null().cast(Float64)`. -/
def notNullInd (o : Option ℚ) : ℚ := if o.isSome then 1 else 0

/-- Indicator `sales > 0` cast to a number; null sales stay null. -/
def salesPosInd (p : RawPanel) (i : Nat) : Option ℚ :=
  (p.row i).sales.map (fun s => if 0 < s then 1 else 0)

/-- Column `recent_sales_count`: rolling_sum of the sales>0 indicator over
a 14-row window. -/
def recent_sales_count (p : RawPanel) (i : Nat) : Option ℚ :=
  rollingSumAt 14 (salesPosInd p) i

/-- Column `days_since_launch = (date - launch_date).dt.total_days()`. -/
def days_since_launch (p : RawPanel) (i : Nat) : Int :=
  (p.row i).date - (p.row i).launch_date

/-- Column `rolling_avg_margin`: rolling_mean of margin over
history_window rows. -/
def rolling_avg_margin (p : RawPanel) (cfg : Config) (i : Nat) : Option ℚ :=
  rollingMeanAt cfg.history_window (fun j => (p.row j).margin) i

/-- Per-field rolling non-null rate over history_window rows (the
temporary quality_* columns). -/
def qualityRate (p : RawPanel) (cfg : Config) (f : Row → Option ℚ) (i : Nat) : Option ℚ :=
  rollingMeanAt cfg.history_window (fun j => some (notNullInd (f (p.row j)))) i

/-- Column `rolling_stockout_rate`: rolling_mean of is_stockout when the
column is present, else the literal 0.0. -/
def rolling_stockout_rate (p : RawPanel) (cfg : Config) (i : Nat) : Option ℚ :=
  if p.colNames.contains "is_stockout" then
    rollingMeanAt cfg.history_window (fun j => (p.row j).is_stockout) i
  else some 0

/-- Column `min_data_quality`: min_horizontal of the four per-field
quality rates (sales, inventory, current_price, cost). -/
def min_data_quality (p : RawPanel) (cfg : Config) (i : Nat) : Option ℚ :=
  minHorizontal
    [qualityRate p cfg Row.sales i,
     qualityRate p cfg Row.inventory i,
     qualityRate p cfg Row.current_price i,
     qualityRate p cfg Row.cost i]

/-- Column `pass_sales_recency = recent_sales_count >= min_recent_sales_days`. -/
def pass_sales_recency (p : RawPanel) (cfg : Config) (i : Nat) : Option Bool :=
  optGe (recent_sales_count p i) (cfg.min_recent_sales_days : ℚ)

/-- Column `pass_inventory_age = days_since_launch <= max_inventory_age_days`
(dates are non-null, so this flag is never null). -/
def pass_inventory_age (p : RawPanel) (cfg : Config) (i : Nat) : Option Bool :=
  some (decide (days_since_launch p i ≤ cfg.max_inventory_age_days))

/-- Column `pass_profitability = rolling_avg_margin >= min_margin`. -/
def pass_profitability (p : RawPanel) (cfg : Config) (i : Nat) : Option Bool :=
  optGe (rolling_avg_margin p cfg i) cfg.min_margin

/-- Column `pass_stockout_rate = rolling_stockout_rate <= max_stockout_rate`. -/
def pass_stockout_rate (p : RawPanel) (cfg : Config) (i : Nat) : Option Bool :=
  optLe (rolling_stockout_rate p cfg i) cfg.max_stockout_rate

/-- Column `pass_data_quality = min_data_quality >= min_data_quality_pct`. -/
def pass_data_quality (p : RawPanel) (cfg : Config) (i : Nat) : Option Bool :=
  optGe (min_data_quality p cfg i) cfg.min_data_quality_pct

/-- Column `should_forecast`: Kleene conjunction of the five pass flags,
then fill_null(False). -/
def should_forecast (p : RawPanel) (cfg : Config) (i : Nat) : Bool :=
  (kand
    (kand
      (kand
        (kand (pass_sales_recency p cfg i) (pass_inventory_age p cfg i))
        (pass_profitability p cfg i))
      (pass_stockout_rate p cfg i))
    (pass_data_quality p cfg i)).getD false

/-- One row of the returned DataFrame: the original columns plus the
derived and pass columns (the temporary quality_* columns are dropped). -/
structure OutRow where
  row : Row
  recent_sales_count : Option ℚ
  days_since_launch : Int
  rolling_avg_margin : Option ℚ
  rolling_stockout_rate : Option ℚ
  min_data_quality : Option ℚ
  pass_sales_recency : Option Bool
  pass_inventory_age : Option Bool
  pass_profitability : Option Bool
  pass_stockout_rate : Option Bool
  pass_data_quality : Option Bool
  should_forecast : Bool
deriving DecidableEq, Repr

/-- The output row at position i of the non-empty branch. -/
def evalRow (p : RawPanel) (cfg : Config) (i : Nat) : OutRow where
  row := p.row i
  recent_sales_count := recent_sales_count p i
  days_since_launch := days_since_launch p i
  rolling_avg_margin := rolling_avg_margin p cfg i
  rolling_stockout_rate := rolling_stockout_rate p cfg i
  min_data_quality := min_data_quality p cfg i
  pass_sales_recency := pass_sales_recency p cfg i
  pass_inventory_age := pass_inventory_age p cfg i
  pass_profitability := pass_profitability p cfg i
  pass_stockout_rate := pass_stockout_rate p cfg i
  pass_data_quality := pass_data_quality p cfg i
  should_forecast := should_forecast p cfg i

/-- The returned table: output schema plus output rows. -/
structure QOutput where
  schema : List (String × Dtype)
  rows : List OutRow
deriving DecidableEq, Repr

/-- with_columns semantics on the schema: replace a column of the same
name in place, else append at the end. -/
def upsertCol (schema : List (String × Dtype)) (c : String × Dtype) :
    List (String × Dtype) :=
  if schema.any (fun e => e.fst = c.fst) then
    schema.map (fun e => if e.fst = c.fst then c else e)
  else schema ++ [c]

/-- Schema entries added by the non-empty branch, in with_columns order. -/
def derivedCols : List (String × Dtype) :=
  [("recent_sales_count", Dtype.int32),
   ("days_since_launch", Dtype.int64),
   ("rolling_avg_margin", Dtype.float64),
   ("rolling_stockout_rate", Dtype.float64),
   ("quality_sales", Dtype.float64),
   ("quality_inventory", Dtype.float64),
   ("quality_current_price", Dtype.float64),
   ("quality_cost", Dtype.float64),
   ("min_data_quality", Dtype.float64),
   ("pass_sales_recency", Dtype.boolean),
   ("pass_inventory_age", Dtype.boolean),
   ("pass_profitability", Dtype.boolean),
   ("pass_stockout_rate", Dtype.boolean),
   ("pass_data_quality", Dtype.boolean),
   ("should_forecast", Dtype.boolean)]

/-- Names of the temporary quality columns dropped at the end. -/
def qualityColNames : List String :=
  ["quality_sales", "quality_inventory", "quality_current_price", "quality_cost"]

/-- Output schema of the non-empty branch: derived columns upserted, then
the temporary quality columns dropped. -/
def outSchema (p : RawPanel) : List (String × Dtype) :=
  (derivedCols.foldl upsertCol p.schema).filter
    (fun e => !(qualityColNames.contains e.fst))

/-- The rows a trailing window of size N ending at row i covers:
rows i+1-N .. i of the panel. -/
def trailingWindow (p : RawPanel) (N i : Nat) : List Row :=
  (p.rows.drop (i + 1 - N)).take N

/-- The required columns checked by the validation step. -/
def requiredCols : List String :=
  ["sales", "date", "launch_date", "margin", "inventory", "current_price", "cost"]

/-- Embedding of `should_forecast_product`: isinstance check, required
column check, empty-input early return, then per-row evaluation. -/
def should_forecast_product (input : Input) (cfg : Config) :
    Except QError QOutput :=
  match input with
  | Input.notDataframe => Except.error QError.typeError
  | Input.dataframe p =>
    let missing := requiredCols.filter (fun c => !(p.colNames.contains c))
    if missing = [] then
      if p.rows.length = 0 then
        Except.ok ⟨upsertCol p.schema ("should_forecast", Dtype.boolean), []⟩
      else
        Except.ok ⟨outSchema p, (List.range p.rows.length).map (evalRow p cfg)⟩
    else Except.error (QError.valueError missing)

end PQ

namespace Models

/-- One row of the table consumed by `calculate_wmape` (the `sales` and
`forecast` columns). -/
structure FRow where
  sales : ℚ
  forecast : ℚ
deriving DecidableEq, Repr

/-- Embedding of `calculate_wmape` from src/models.py: filter to rows
with sales > 0; None when no such row; else
sum(abs(sales - forecast)) / sum(sales), with a 0.0 guard when the
denominator is not positive. -/
def calculate_wmape (rows : List FRow) : Option ℚ :=
  let valid_sales := rows.filter (fun r => decide (0 < r.sales))
  if valid_sales.length = 0 then none
  else
    let numerator := (valid_sales.map (fun r => |r.sales - r.forecast|)).sum
    let denominator := (valid_sales.map (fun r => r.sales)).sum
    if 0 < denominator then some (numerator / denominator) else some 0

end Models

namespace PolicyB

open PQ

/-- Modelled from the spec: the Policy B (inventory/clearance gate)
configuration.  The Policy B evaluation function is not in src/ (only its
unit tests reference `pass_inventory`, `clearance_markdown_pct` and
`pass_clearance_sales`), so it is modelled from spec section 4.1. -/
structure ConfigB where
  min_recent_sales_days : Int := 7
  min_margin : ℚ := 0
  history_window : Nat := 28
  new_product_days : Int := 14
  clearance_markdown_pct : ℚ := 3/10
deriving DecidableEq, Repr

/-- Modelled from the spec: Policy B column `pass_inventory = inventory > 0`. -/
def pass_inventory (p : RawPanel) (i : Nat) : Option Bool :=
  (p.row i).inventory.map (fun v => decide (0 < v))

/-- Modelled from the spec: Policy B column
`is_new_product = days_since_launch <= new_product_days`. -/
def is_new_product (p : RawPanel) (cfg : ConfigB) (i : Nat) : Option Bool :=
  some (decide (days_since_launch p i ≤ cfg.new_product_days))

/-- Modelled from the spec: Policy B sales-recency flag,
`recent_sales_count >= min_recent_sales_days`. -/
def pass_sales_recencyB (p : RawPanel) (cfg : ConfigB) (i : Nat) : Option Bool :=
  optGe (recent_sales_count p i) (cfg.min_recent_sales_days : ℚ)

/-- Modelled from the spec: Policy B column
`pass_product_age_rule = is_new_product OR pass_sales_recency`. -/
def pass_product_age_rule (p : RawPanel) (cfg : ConfigB) (i : Nat) : Option Bool :=
  kor (is_new_product p cfg i) (pass_sales_recencyB p cfg i)

/-- Modelled from the spec: Policy B profitability flag, as in Policy A:
rolling mean margin over history_window compared to min_margin. -/
def pass_profitabilityB (p : RawPanel) (cfg : ConfigB) (i : Nat) : Option Bool :=
  optGe (rollingMeanAt cfg.history_window (fun j => (p.row j).margin) i) cfg.min_margin

/-- Modelled from the spec: Policy B column
`pass_clearance_sales = markdown_pct >= clearance_markdown_pct`, false
(not null) when the markdown_pct column is absent. -/
def pass_clearance_sales (p : RawPanel) (cfg : ConfigB) (i : Nat) : Option Bool :=
  if p.colNames.contains "markdown_pct" then
    optGe (p.row i).markdown_pct cfg.clearance_markdown_pct
  else some false

/-- Modelled from the spec: Policy B decision,
`pass_inventory & pass_product_age_rule & pass_profitability &
pass_clearance_sales`, null to false. -/
def should_forecastB (p : RawPanel) (cfg : ConfigB) (i : Nat) : Bool :=
  (kand
    (kand
      (kand (pass_inventory p i) (pass_product_age_rule p cfg i))
      (pass_profitabilityB p cfg i))
    (pass_clearance_sales p cfg i)).getD false

/-- Modelled from the spec: one output row of the Policy B engine. -/
structure OutRowB where
  row : Row
  pass_inventory : Option Bool
  pass_product_age_rule : Option Bool
  pass_profitability : Option Bool
  pass_clearance_sales : Option Bool
  should_forecast : Bool
deriving DecidableEq, Repr

/-- Modelled from the spec: the Policy B engine, row by row. -/
def evaluate_policy_b (p : RawPanel) (cfg : ConfigB) : List OutRowB :=
  (List.range p.rows.length).map (fun i =>
    { row := p.row i
      pass_inventory := pass_inventory p i
      pass_product_age_rule := pass_product_age_rule p cfg i
      pass_profitability := pass_profitabilityB p cfg i
      pass_clearance_sales := pass_clearance_sales p cfg i
      should_forecast := should_forecastB p cfg i })

end PolicyB

namespace W

open PQ

/-- Concrete witness row: one fully populated daily observation. -/
def wRow : Row where
  date := 100
  sales := some 10
  launch_date := 70
  margin := some (1/2)
  inventory := some 100
  current_price := some 20
  cost := some 10
  is_stockout := none
  markdown_pct := none

/-- Schema holding exactly the required columns. -/
def reqSchema : List (String × Dtype) :=
  [("date", Dtype.date), ("sales", Dtype.int64), ("launch_date", Dtype.date),
   ("margin", Dtype.float64), ("inventory", Dtype.int64),
   ("current_price", Dtype.float64), ("cost", Dtype.float64)]

/-- Witness panel: one valid row over the required schema. -/
def wPanel : RawPanel := ⟨reqSchema, [wRow]⟩

/-- Witness panel with the date column missing from the schema. -/
def wPanelMissing : RawPanel := ⟨reqSchema.tail, [wRow]⟩

/-- Witness panel with the required schema and zero rows. -/
def wPanelEmpty : RawPanel := ⟨reqSchema, []⟩

/-- Witness row with zero inventory, for the Policy B inventory gate. -/
def wRowZeroInv : Row := { wRow with inventory := some 0 }

/-- Witness panel for the Policy B inventory gate. -/
def wPanelB : RawPanel := ⟨reqSchema, [wRowZeroInv]⟩

/-- The default configuration of `should_forecast_product`. -/
def defaultCfg : Config := {}

/-- Witness table for the accuracy-scoring stage: one positive-sales row
and one zero-sales row. -/
def wRows : List Models.FRow := [⟨10, 8⟩, ⟨0, 5⟩]

/-- The default Policy B configuration. -/
def defaultCfgB : PolicyB.ConfigB := {}

end W

namespace PQ

/-! Helper lemmas about list slices, the rolling primitives and the
three-valued logic. -/

lemma slice_eq_range_getD {α : Type} [Inhabited α] (rows : List α) (N i : Nat)
    (hN : N ≤ i + 1) (hi : i < rows.length) :
    (rows.drop (i + 1 - N)).take N =
      (List.range N).map (fun j => rows.getD (i + 1 - N + j) default) := by
  apply List.ext_getElem?
  intro j
  by_cases hj : j < N
  · have hlt : i + 1 - N + j < rows.length := by omega
    rw [List.getElem?_take_of_lt hj, List.getElem?_drop,
        List.getElem?_map, List.getElem?_range hj]
    rw [List.getElem?_eq_getElem hlt]
    simp [List.getD_eq_getElem?_getD, List.getElem?_eq_getElem hlt]
  · rw [List.getElem?_eq_none_iff.mpr, List.getElem?_eq_none_iff.mpr]
    · simp; omega
    · simp [List.length_take, List.length_drop]; omega

lemma windowVals_eq_map (p : RawPanel) (g : Row → Option ℚ) (N i : Nat)
    (hN : N ≤ i + 1) (hi : i < p.rows.length) :
    windowVals N (fun j => g (p.row j)) i = (trailingWindow p N i).map g := by
  unfold windowVals trailingWindow RawPanel.row
  rw [slice_eq_range_getD p.rows N i hN hi, List.map_map]
  rfl

lemma rollingSumAt_of_insufficient (N : Nat) (col : Nat → Option ℚ) (i : Nat)
    (h : i + 1 < N) : rollingSumAt N col i = none := by
  simp [rollingSumAt, h]

lemma rollingMeanAt_of_insufficient (N : Nat) (col : Nat → Option ℚ) (i : Nat)
    (h : i + 1 < N) : rollingMeanAt N col i = none := by
  simp [rollingMeanAt, rollingSumAt_of_insufficient N col i h]

lemma rollingSumAt_of_total (N : Nat) (col : Nat → Option ℚ) (i : Nat)
    (hN : ¬ i + 1 < N) (hall : (windowVals N col i).all Option.isSome = true) :
    rollingSumAt N col i = some ((windowVals N col i).filterMap id).sum := by
  simp [rollingSumAt, hN, hall]

lemma filterMap_eq_map_getD {α : Type} (l : List α) (f : α → Option ℚ)
    (h : l.all (fun x => (f x).isSome) = true) :
    l.filterMap f = l.map (fun x => (f x).getD 0) := by
  induction l with
  | nil => rfl
  | cons a t ih =>
    rw [List.all_cons, Bool.and_eq_true] at h
    obtain ⟨h1, h2⟩ := h
    obtain ⟨v, hv⟩ := Option.isSome_iff_exists.mp h1
    simp [List.filterMap_cons, hv, ih h2]

lemma kand_getD_false (a b : Option Bool) :
    (kand a b).getD false = (a.getD false && b.getD false) := by
  revert a b; decide

lemma kand_eq_some_true (a b : Option Bool) :
    kand a b = some true ↔ (a = some true ∧ b = some true) := by
  revert a b; decide

lemma should_forecast_eq_conj (p : RawPanel) (cfg : Config) (i : Nat) :
    should_forecast p cfg i =
      ((pass_sales_recency p cfg i).getD false &&
       (pass_inventory_age p cfg i).getD false &&
       (pass_profitability p cfg i).getD false &&
       (pass_stockout_rate p cfg i).getD false &&
       (pass_data_quality p cfg i).getD false) := by
  unfold should_forecast
  rw [kand_getD_false, kand_getD_false, kand_getD_false, kand_getD_false]

lemma should_forecast_false_of_agg_none (p : RawPanel) (cfg : Config) (i : Nat)
    (h : recent_sales_count p i = none ∨ rolling_avg_margin p cfg i = none ∨
         rolling_stockout_rate p cfg i = none ∨ min_data_quality p cfg i = none) :
    should_forecast p cfg i = false := by
  rw [should_forecast_eq_conj]
  rcases h with h | h | h | h <;>
    simp [pass_sales_recency, pass_profitability, pass_stockout_rate,
          pass_data_quality, optGe, optLe, h]

lemma sfp_ok (p : RawPanel) (cfg : Config)
    (hcols : requiredCols.all (fun c => p.colNames.contains c) = true)
    (hne : p.rows ≠ []) :
    should_forecast_product (Input.dataframe p) cfg =
      Except.ok ⟨outSchema p, (List.range p.rows.length).map (evalRow p cfg)⟩ := by
  have hmem : ∀ c ∈ requiredCols, c ∈ p.colNames := by
    intro c hc
    have hcc := List.all_eq_true.mp hcols c hc
    simpa using hcc
  have hlen : p.rows.length ≠ 0 := by
    simpa using hne
  simp [should_forecast_product, hlen]
  exact hmem

lemma sfp_rows_get (p : RawPanel) (cfg : Config) (i : Nat)
    (hi : i < p.rows.length) :
    ((List.range p.rows.length).map (evalRow p cfg))[i]? = some (evalRow p cfg i) := by
  rw [List.getElem?_map, List.getElem?_range hi]
  rfl

/-- C1: for every non-empty valid panel and configuration, the
should_forecast column produced by should_forecast_product equals the
conjunction of pass_sales_recency, pass_inventory_age, pass_profitability,
pass_stockout_rate and pass_data_quality with any null conjunct treated
as false, and at every row where any contributing rolling aggregate is
null, should_forecast is false (it is a non-null boolean by construction,
so never null and never true there). -/
theorem C1_should_forecast_fail_closed (p : RawPanel) (cfg : Config)
    (hcols : requiredCols.all (fun c => p.colNames.contains c) = true)
    (hne : p.rows ≠ []) (i : Nat) (hi : i < p.rows.length) :
    ∃ out, should_forecast_product (Input.dataframe p) cfg = Except.ok out ∧
      ∀ r, out.rows[i]? = some r →
        r.should_forecast =
          (r.pass_sales_recency.getD false && r.pass_inventory_age.getD false &&
           r.pass_profitability.getD false && r.pass_stockout_rate.getD false &&
           r.pass_data_quality.getD false) ∧
        ((r.recent_sales_count = none ∨ r.rolling_avg_margin = none ∨
          r.rolling_stockout_rate = none ∨ r.min_data_quality = none) →
          r.should_forecast = false) := by
  refine ⟨_, sfp_ok p cfg hcols hne, ?_⟩
  intro r hr
  rw [sfp_rows_get p cfg i hi] at hr
  injection hr with hr
  subst hr
  exact ⟨should_forecast_eq_conj p cfg i,
         fun h => should_forecast_false_of_agg_none p cfg i h⟩

/-- Witness for C1 at a concrete one-row panel with the default
configuration. -/
theorem C1_witness :
    (requiredCols.all (fun c => W.wPanel.colNames.contains c) = true ∧
     W.wPanel.rows ≠ [] ∧ 0 < W.wPanel.rows.length) ∧
    (∃ out, should_forecast_product (Input.dataframe W.wPanel) W.defaultCfg =
        Except.ok out ∧
      ∀ r, out.rows[0]? = some r →
        r.should_forecast =
          (r.pass_sales_recency.getD false && r.pass_inventory_age.getD false &&
           r.pass_profitability.getD false && r.pass_stockout_rate.getD false &&
           r.pass_data_quality.getD false) ∧
        ((r.recent_sales_count = none ∨ r.rolling_avg_margin = none ∨
          r.rolling_stockout_rate = none ∨ r.min_data_quality = none) →
          r.should_forecast = false)) :=
  ⟨⟨by decide, by decide, by decide⟩,
   C1_should_forecast_fail_closed W.wPanel W.defaultCfg (by decide) (by decide)
     0 (by decide)⟩

lemma sfp_error (p : RawPanel) (cfg : Config)
    (h : requiredCols.filter (fun c => !(p.colNames.contains c)) ≠ []) :
    should_forecast_product (Input.dataframe p) cfg =
      Except.error (QError.valueError
        (requiredCols.filter (fun c => !(p.colNames.contains c)))) := by
  simp only [should_forecast_product]
  rw [if_neg h]

/-- C4: a panel missing at least one required column makes
should_forecast_product fail with the schema error (the ValueError of the
source, playing the role of the SchemaError of the spec taxonomy),
surfaced immediately with no partial output, and any input that is not a
DataFrame fails with the TypeError. -/
theorem C4_validation_errors (p : RawPanel) (cfg : Config)
    (c : String) (hc : c ∈ requiredCols) (hmiss : c ∉ p.colNames) :
    (∃ m, m ≠ [] ∧ should_forecast_product (Input.dataframe p) cfg =
        Except.error (QError.valueError m)) ∧
    should_forecast_product Input.notDataframe cfg =
      Except.error QError.typeError := by
  have hfil : requiredCols.filter (fun x => !(p.colNames.contains x)) ≠ [] := by
    intro h
    rw [List.filter_eq_nil_iff] at h
    exact hmiss (by simpa using h c hc)
  exact ⟨⟨_, hfil, sfp_error p cfg hfil⟩, rfl⟩

/-- Witness for C4 at a concrete panel missing the date column. -/
theorem C4_witness :
    ("date" ∈ requiredCols ∧ "date" ∉ W.wPanelMissing.colNames) ∧
    ((∃ m, m ≠ [] ∧
        should_forecast_product (Input.dataframe W.wPanelMissing) W.defaultCfg =
          Except.error (QError.valueError m)) ∧
     should_forecast_product Input.notDataframe W.defaultCfg =
       Except.error QError.typeError) :=
  ⟨⟨by decide, by decide⟩,
   C4_validation_errors W.wPanelMissing W.defaultCfg "date" (by decide) (by decide)⟩

/-- C5: a zero-row panel with the required columns present (and without a
pre-existing should_forecast column) returns a zero-row table whose
schema additionally declares should_forecast as a (nullable) boolean
column, raising no error. -/
theorem C5_empty_input (p : RawPanel) (cfg : Config)
    (hcols : requiredCols.all (fun c => p.colNames.contains c) = true)
    (hempty : p.rows = [])
    (hno : p.colNames.contains "should_forecast" = false) :
    ∃ out, should_forecast_product (Input.dataframe p) cfg = Except.ok out ∧
      out.rows = [] ∧
      out.schema = p.schema ++ [("should_forecast", Dtype.boolean)] := by
  have hmem : ∀ c ∈ requiredCols, c ∈ p.colNames := by
    intro c hc
    have hcc := List.all_eq_true.mp hcols c hc
    simpa using hcc
  have hno2 : "should_forecast" ∉ p.colNames := by simpa using hno
  have hupsert : upsertCol p.schema ("should_forecast", Dtype.boolean) =
      p.schema ++ [("should_forecast", Dtype.boolean)] := by
    unfold upsertCol
    rw [if_neg]
    intro hany
    rw [List.any_eq_true] at hany
    obtain ⟨e, he, heq⟩ := hany
    exact hno2 (by
      have hfst : e.fst = "should_forecast" := by simpa using heq
      exact hfst ▸ List.mem_map_of_mem Prod.fst he)
  refine ⟨⟨upsertCol p.schema ("should_forecast", Dtype.boolean), []⟩, ?_, rfl,
    hupsert⟩
  simp [should_forecast_product, hempty]
  exact hmem

/-- Witness for C5 at a concrete zero-row panel over the required schema. -/
theorem C5_witness :
    (requiredCols.all (fun c => W.wPanelEmpty.colNames.contains c) = true ∧
     W.wPanelEmpty.rows = [] ∧
     W.wPanelEmpty.colNames.contains "should_forecast" = false) ∧
    (∃ out, should_forecast_product (Input.dataframe W.wPanelEmpty) W.defaultCfg =
        Except.ok out ∧
      out.rows = [] ∧
      out.schema = W.wPanelEmpty.schema ++ [("should_forecast", Dtype.boolean)]) :=
  ⟨⟨by decide, by decide, by decide⟩,
   C5_empty_input W.wPanelEmpty W.defaultCfg (by decide) (by decide) (by decide)⟩

/-- C7: a valid panel without the optional is_stockout column never
errors, and every output row carries the documented fallback
rolling_stockout_rate of 0.0. -/
theorem C7_missing_stockout_fallback (p : RawPanel) (cfg : Config)
    (hcols : requiredCols.all (fun c => p.colNames.contains c) = true)
    (hno : p.colNames.contains "is_stockout" = false) :
    ∃ out, should_forecast_product (Input.dataframe p) cfg = Except.ok out ∧
      ∀ r ∈ out.rows, r.rolling_stockout_rate = some 0 := by
  by_cases hne : p.rows = []
  · have hmem : ∀ c ∈ requiredCols, c ∈ p.colNames := by
      intro c hc
      have hcc := List.all_eq_true.mp hcols c hc
      simpa using hcc
    refine ⟨⟨upsertCol p.schema ("should_forecast", Dtype.boolean), []⟩, ?_, ?_⟩
    · simp [should_forecast_product, hne]
      exact hmem
    · intro r hr
      simp at hr
  · refine ⟨_, sfp_ok p cfg hcols hne, ?_⟩
    intro r hr
    rw [List.mem_map] at hr
    obtain ⟨i, _, rfl⟩ := hr
    show rolling_stockout_rate p cfg i = some 0
    unfold rolling_stockout_rate
    rw [if_neg]
    simpa using hno

/-- Witness for C7 at a concrete one-row panel lacking is_stockout. -/
theorem C7_witness :
    (requiredCols.all (fun c => W.wPanel.colNames.contains c) = true ∧
     W.wPanel.colNames.contains "is_stockout" = false) ∧
    (∃ out, should_forecast_product (Input.dataframe W.wPanel) W.defaultCfg =
        Except.ok out ∧
      ∀ r ∈ out.rows, r.rolling_stockout_rate = some 0) :=
  ⟨⟨by decide, by decide⟩,
   C7_missing_stockout_fallback W.wPanel W.defaultCfg (by decide) (by decide)⟩

/-- C10: with is_stockout absent, rolling_stockout_rate is the constant
0.0 at every output row, including rows with fewer than history_window
rows of history, and for any non-negative max_stockout_rate the
pass_stockout_rate flag is true (never null) at every row. -/
theorem C10_stockout_never_null (p : RawPanel) (cfg : Config)
    (hcols : requiredCols.all (fun c => p.colNames.contains c) = true)
    (hno : p.colNames.contains "is_stockout" = false)
    (hrate : 0 ≤ cfg.max_stockout_rate) :
    ∃ out, should_forecast_product (Input.dataframe p) cfg = Except.ok out ∧
      ∀ r ∈ out.rows, r.rolling_stockout_rate = some 0 ∧
        r.pass_stockout_rate = some true := by
  by_cases hne : p.rows = []
  · have hmem : ∀ c ∈ requiredCols, c ∈ p.colNames := by
      intro c hc
      have hcc := List.all_eq_true.mp hcols c hc
      simpa using hcc
    refine ⟨⟨upsertCol p.schema ("should_forecast", Dtype.boolean), []⟩, ?_, ?_⟩
    · simp [should_forecast_product, hne]
      exact hmem
    · intro r hr
      simp at hr
  · refine ⟨_, sfp_ok p cfg hcols hne, ?_⟩
    intro r hr
    rw [List.mem_map] at hr
    obtain ⟨i, _, rfl⟩ := hr
    have hzero : rolling_stockout_rate p cfg i = some 0 := by
      unfold rolling_stockout_rate
      rw [if_neg]
      simpa using hno
    refine ⟨hzero, ?_⟩
    show pass_stockout_rate p cfg i = some true
    simp [pass_stockout_rate, optLe, hzero, hrate]

/-- Witness for C10 at a concrete one-row panel lacking is_stockout with
the default configuration. -/
theorem C10_witness :
    (requiredCols.all (fun c => W.wPanel.colNames.contains c) = true ∧
     W.wPanel.colNames.contains "is_stockout" = false ∧
     0 ≤ W.defaultCfg.max_stockout_rate) ∧
    (∃ out, should_forecast_product (Input.dataframe W.wPanel) W.defaultCfg =
        Except.ok out ∧
      ∀ r ∈ out.rows, r.rolling_stockout_rate = some 0 ∧
        r.pass_stockout_rate = some true) :=
  ⟨⟨by decide, by decide, by simp [W.defaultCfg]⟩,
   C10_stockout_never_null W.wPanel W.defaultCfg (by decide) (by decide)
     (by simp [W.defaultCfg])⟩

lemma kand_some_false_left (b : Option Bool) : kand (some false) b = some false := by
  revert b; decide

lemma getD_false_eq_true_iff (o : Option Bool) : o.getD false = true ↔ o = some true := by
  cases o <;> simp

end PQ

namespace PolicyB

open PQ

lemma evalB_fields (p : RawPanel) (cfg : ConfigB) (j : Nat) (r : OutRowB)
    (hr : (evaluate_policy_b p cfg)[j]? = some r) :
    r.pass_inventory = pass_inventory p j ∧
    r.should_forecast = should_forecastB p cfg j := by
  unfold evaluate_policy_b at hr
  by_cases hj : j < p.rows.length
  · rw [List.getElem?_map, List.getElem?_range hj] at hr
    simp only [Option.map_some'] at hr
    injection hr with hr
    subst hr
    exact ⟨rfl, rfl⟩
  · exfalso
    rw [List.getElem?_eq_none_iff.mpr (by simp; omega)] at hr
    cases hr

/-- C3: under the spec-modelled Policy B engine, every output row has a
pass_inventory column equal to inventory > 0, and at every row whose
inventory is at most 0 the output has pass_inventory false and
should_forecast false regardless of all other fields. -/
theorem C3_policy_b_inventory_gate (p : RawPanel) (cfg : ConfigB)
    (i : Nat) (v : ℚ) (hv : (p.row i).inventory = some v) (hle : v ≤ 0) :
    (∀ j r, (evaluate_policy_b p cfg)[j]? = some r →
       r.pass_inventory = (p.row j).inventory.map (fun x => decide (0 < x))) ∧
    ∀ r, (evaluate_policy_b p cfg)[i]? = some r →
      r.pass_inventory = some false ∧ r.should_forecast = false := by
  have hpi : pass_inventory p i = some false := by
    unfold pass_inventory
    rw [hv]
    simp [not_lt.mpr hle]
  constructor
  · intro j r hr
    rw [(evalB_fields p cfg j r hr).1]
    rfl
  · intro r hr
    obtain ⟨h1, h2⟩ := evalB_fields p cfg i r hr
    refine ⟨h1.trans hpi, ?_⟩
    rw [h2]
    unfold should_forecastB
    rw [hpi, kand_some_false_left, kand_some_false_left, kand_some_false_left]
    rfl

/-- Witness for C3 at a concrete one-row panel with zero inventory. -/
theorem C3_witness :
    ((W.wPanelB.row 0).inventory = some 0 ∧ (0 : ℚ) ≤ 0) ∧
    ((∀ j r, (evaluate_policy_b W.wPanelB W.defaultCfgB)[j]? = some r →
        r.pass_inventory = (W.wPanelB.row j).inventory.map (fun x => decide (0 < x))) ∧
     ∀ r, (evaluate_policy_b W.wPanelB W.defaultCfgB)[0]? = some r →
       r.pass_inventory = some false ∧ r.should_forecast = false) :=
  ⟨⟨by decide, by decide⟩,
   C3_policy_b_inventory_gate W.wPanelB W.defaultCfgB 0 0 (by decide) (by decide)⟩

end PolicyB

namespace Models

/-- C9: for every table with sales and forecast columns containing at
least one row with sales > 0, calculate_wmape returns
sum(abs(sales - forecast)) / sum(sales) computed over exactly the rows
with sales > 0. -/
theorem C9_wmape_positive_sales (rows : List FRow) (r0 : FRow)
    (hr0 : r0 ∈ rows) (h0 : 0 < r0.sales) :
    calculate_wmape rows =
      some ((((rows.filter (fun r => decide (0 < r.sales))).map
          (fun r => |r.sales - r.forecast|)).sum) /
        (((rows.filter (fun r => decide (0 < r.sales))).map
          (fun r => r.sales)).sum)) := by
  have hmem : r0 ∈ rows.filter (fun r => decide (0 < r.sales)) :=
    List.mem_filter.mpr ⟨hr0, by simpa using h0⟩
  have hne : rows.filter (fun r => decide (0 < r.sales)) ≠ [] :=
    List.ne_nil_of_mem hmem
  have hlen : ¬ ((rows.filter (fun r => decide (0 < r.sales))).length = 0) := by
    simpa using hne
  have hpos : 0 < ((rows.filter (fun r => decide (0 < r.sales))).map
      (fun r => r.sales)).sum := by
    apply List.sum_pos
    · intro x hx
      rw [List.mem_map] at hx
      obtain ⟨r, hr, rfl⟩ := hx
      exact of_decide_eq_true (List.mem_filter.mp hr).2
    · intro hmap
      rw [List.map_eq_nil_iff] at hmap
      exact hne hmap
  simp only [calculate_wmape]
  rw [if_neg hlen, if_pos hpos]

/-- Witness for C9 at a concrete two-row table with one positive-sales
row. -/
theorem C9_witness :
    ((⟨10, 8⟩ : FRow) ∈ W.wRows ∧ (0 : ℚ) < (⟨10, 8⟩ : FRow).sales) ∧
    calculate_wmape W.wRows =
      some ((((W.wRows.filter (fun r => decide (0 < r.sales))).map
          (fun r => |r.sales - r.forecast|)).sum) /
        (((W.wRows.filter (fun r => decide (0 < r.sales))).map
          (fun r => r.sales)).sum)) :=
  ⟨⟨by decide, by decide⟩,
   C9_wmape_positive_sales W.wRows ⟨10, 8⟩ (by decide) (by decide)⟩

end Models

namespace PQ

/-- C8: for a fixed valid panel and two configurations identical except
for min_recent_sales_days, increasing min_recent_sales_days can only
change should_forecast from true to false at every row, never from false
to true. -/
theorem C8_monotone_sales_recency_threshold (p : RawPanel) (c1 c2 : Config)
    (hcols : requiredCols.all (fun c => p.colNames.contains c) = true)
    (hne : p.rows ≠ [])
    (h1 : c1.max_stockout_rate = c2.max_stockout_rate)
    (h2 : c1.min_margin = c2.min_margin)
    (h3 : c1.min_data_quality_pct = c2.min_data_quality_pct)
    (h4 : c1.max_inventory_age_days = c2.max_inventory_age_days)
    (h5 : c1.history_window = c2.history_window)
    (hmono : c1.min_recent_sales_days ≤ c2.min_recent_sales_days)
    (i : Nat) (hi : i < p.rows.length) :
    ∃ o1 o2, should_forecast_product (Input.dataframe p) c1 = Except.ok o1 ∧
      should_forecast_product (Input.dataframe p) c2 = Except.ok o2 ∧
      ∀ r1 r2, o1.rows[i]? = some r1 → o2.rows[i]? = some r2 →
        (r2.should_forecast = true → r1.should_forecast = true) := by
  refine ⟨_, _, sfp_ok p c1 hcols hne, sfp_ok p c2 hcols hne, ?_⟩
  intro r1 r2 hr1 hr2
  rw [sfp_rows_get p c1 i hi] at hr1
  rw [sfp_rows_get p c2 i hi] at hr2
  injection hr1 with hr1
  injection hr2 with hr2
  subst hr1
  subst hr2
  intro h
  have e2 : pass_inventory_age p c1 i = pass_inventory_age p c2 i := by
    unfold pass_inventory_age
    rw [h4]
  have e3 : pass_profitability p c1 i = pass_profitability p c2 i := by
    unfold pass_profitability rolling_avg_margin
    rw [h2, h5]
  have e4 : pass_stockout_rate p c1 i = pass_stockout_rate p c2 i := by
    unfold pass_stockout_rate rolling_stockout_rate
    rw [h1, h5]
  have e5 : pass_data_quality p c1 i = pass_data_quality p c2 i := by
    unfold pass_data_quality min_data_quality qualityRate
    rw [h3, h5]
  have e1 : pass_sales_recency p c2 i = some true →
      pass_sales_recency p c1 i = some true := by
    unfold pass_sales_recency optGe
    cases hc : recent_sales_count p i with
    | none => simp
    | some v =>
      simp only [Option.map_some']
      intro hv
      injection hv with hv
      have hv2 : (c2.min_recent_sales_days : ℚ) ≤ v := of_decide_eq_true hv
      have hv1 : (c1.min_recent_sales_days : ℚ) ≤ v :=
        le_trans (by exact_mod_cast hmono) hv2
      simp [hv1]
  have hsf : should_forecast p c2 i = true := h
  show should_forecast p c1 i = true
  rw [should_forecast_eq_conj] at hsf ⊢
  rw [Bool.and_eq_true, Bool.and_eq_true, Bool.and_eq_true, Bool.and_eq_true]
    at hsf ⊢
  obtain ⟨⟨⟨⟨ha, hb⟩, hc⟩, hd⟩, he⟩ := hsf
  rw [getD_false_eq_true_iff] at ha
  refine ⟨⟨⟨⟨?_, ?_⟩, ?_⟩, ?_⟩, ?_⟩
  · rw [getD_false_eq_true_iff]
    exact e1 ha
  · rw [e2]; exact hb
  · rw [e3]; exact hc
  · rw [e4]; exact hd
  · rw [e5]; exact he

/-- Witness for C8 at a concrete one-row panel with the default
configuration on both sides. -/
theorem C8_witness :
    (requiredCols.all (fun c => W.wPanel.colNames.contains c) = true ∧
     W.wPanel.rows ≠ [] ∧
     W.defaultCfg.min_recent_sales_days ≤ W.defaultCfg.min_recent_sales_days ∧
     0 < W.wPanel.rows.length) ∧
    (∃ o1 o2, should_forecast_product (Input.dataframe W.wPanel) W.defaultCfg =
        Except.ok o1 ∧
      should_forecast_product (Input.dataframe W.wPanel) W.defaultCfg =
        Except.ok o2 ∧
      ∀ r1 r2, o1.rows[0]? = some r1 → o2.rows[0]? = some r2 →
        (r2.should_forecast = true → r1.should_forecast = true)) :=
  ⟨⟨by decide, by decide, le_refl _, by decide⟩,
   C8_monotone_sales_recency_threshold W.wPanel W.defaultCfg W.defaultCfg
     (by decide) (by decide) rfl rfl rfl rfl rfl (le_refl _) 0 (by decide)⟩

lemma trailingWindow_length (p : RawPanel) (N i : Nat)
    (hN : N ≤ i + 1) (hi : i < p.rows.length) :
    (trailingWindow p N i).length = N := by
  unfold trailingWindow
  rw [List.length_take, List.length_drop]
  omega

lemma rollingSumAt_opt_eq (p : RawPanel) (f : Row → Option ℚ) (N i : Nat)
    (hN : N ≤ i + 1) (hi : i < p.rows.length)
    (hall : (trailingWindow p N i).all (fun w => (f w).isSome) = true) :
    rollingSumAt N (fun j => f (p.row j)) i =
      some ((trailingWindow p N i).map (fun w => (f w).getD 0)).sum := by
  have hw := windowVals_eq_map p f N i hN hi
  have hallw : (windowVals N (fun j => f (p.row j)) i).all Option.isSome = true := by
    rw [hw]
    simpa using hall
  rw [rollingSumAt_of_total _ _ _ (by omega) hallw, hw, List.filterMap_map]
  rw [show (id ∘ f) = f from rfl, filterMap_eq_map_getD _ _ hall]

lemma rollingMeanAt_opt_eq (p : RawPanel) (f : Row → Option ℚ) (N i : Nat)
    (hN : N ≤ i + 1) (hi : i < p.rows.length)
    (hall : (trailingWindow p N i).all (fun w => (f w).isSome) = true) :
    rollingMeanAt N (fun j => f (p.row j)) i =
      some (((trailingWindow p N i).map (fun w => (f w).getD 0)).sum / (N : ℚ)) := by
  unfold rollingMeanAt
  rw [rollingSumAt_opt_eq p f N i hN hi hall]
  rfl

lemma rollingMeanAt_total_eq (p : RawPanel) (g : Row → ℚ) (N i : Nat)
    (hN : N ≤ i + 1) (hi : i < p.rows.length) :
    rollingMeanAt N (fun j => some (g (p.row j))) i =
      some (((trailingWindow p N i).map g).sum / (N : ℚ)) := by
  have hall : (trailingWindow p N i).all (fun w => (some (g w)).isSome) = true := by
    simp
  have h := rollingMeanAt_opt_eq p (fun w => some (g w)) N i hN hi hall
  simpa using h

lemma qualityRate_eq (p : RawPanel) (cfg : Config) (f : Row → Option ℚ) (i : Nat)
    (hN : cfg.history_window ≤ i + 1) (hi : i < p.rows.length) :
    qualityRate p cfg f i =
      some (((trailingWindow p cfg.history_window i).map
        (fun w => notNullInd (f w))).sum / (cfg.history_window : ℚ)) := by
  unfold qualityRate
  exact rollingMeanAt_total_eq p (fun w => notNullInd (f w)) cfg.history_window i hN hi

lemma map_ind_getD (o : Option ℚ) :
    (o.map (fun s => if 0 < s then (1 : ℚ) else 0)).getD 0 =
      if 0 < o.getD 0 then (1 : ℚ) else 0 := by
  cases o <;> simp

lemma minHorizontal_four (a b c d : ℚ) :
    minHorizontal [some a, some b, some c, some d] =
      some (min (min (min a b) c) d) := rfl

lemma minHorizontal_four_none :
    minHorizontal [(none : Option ℚ), none, none, none] = none := rfl

lemma min_data_quality_eq (p : RawPanel) (cfg : Config) (i : Nat)
    (hN : cfg.history_window ≤ i + 1) (hi : i < p.rows.length) :
    min_data_quality p cfg i =
      some (min (min (min
        (((trailingWindow p cfg.history_window i).map
          (fun w => notNullInd w.sales)).sum / (cfg.history_window : ℚ))
        (((trailingWindow p cfg.history_window i).map
          (fun w => notNullInd w.inventory)).sum / (cfg.history_window : ℚ)))
        (((trailingWindow p cfg.history_window i).map
          (fun w => notNullInd w.current_price)).sum / (cfg.history_window : ℚ)))
        (((trailingWindow p cfg.history_window i).map
          (fun w => notNullInd w.cost)).sum / (cfg.history_window : ℚ))) := by
  unfold min_data_quality
  rw [qualityRate_eq p cfg Row.sales i hN hi,
      qualityRate_eq p cfg Row.inventory i hN hi,
      qualityRate_eq p cfg Row.current_price i hN hi,
      qualityRate_eq p cfg Row.cost i hN hi,
      minHorizontal_four]

lemma min_data_quality_insufficient (p : RawPanel) (cfg : Config) (i : Nat)
    (h : i + 1 < cfg.history_window) :
    min_data_quality p cfg i = none := by
  unfold min_data_quality qualityRate
  rw [rollingMeanAt_of_insufficient _ _ _ h, rollingMeanAt_of_insufficient _ _ _ h,
      rollingMeanAt_of_insufficient _ _ _ h, rollingMeanAt_of_insufficient _ _ _ h]
  rfl

/-- C2: for every non-empty valid panel, each rolling aggregate
(recent_sales_count over window 14, rolling_avg_margin and the per-field
non-null rates over history_window) at row i is null when fewer than N
rows are available (i + 1 < N) and the corresponding pass flag is null,
not false; otherwise the aggregate ranges over exactly the N rows
[i-N+1, i], never a shorter window. -/
theorem C2_trailing_window_semantics (p : RawPanel) (cfg : Config)
    (hcols : requiredCols.all (fun c => p.colNames.contains c) = true)
    (hne : p.rows ≠ []) (i : Nat) (hi : i < p.rows.length) :
    ∃ out, should_forecast_product (Input.dataframe p) cfg = Except.ok out ∧
      ∀ r, out.rows[i]? = some r →
        (i + 1 < 14 → r.recent_sales_count = none ∧ r.pass_sales_recency = none) ∧
        (i + 1 < cfg.history_window →
           r.rolling_avg_margin = none ∧ r.pass_profitability = none ∧
           qualityRate p cfg Row.sales i = none ∧
           qualityRate p cfg Row.inventory i = none ∧
           qualityRate p cfg Row.current_price i = none ∧
           qualityRate p cfg Row.cost i = none ∧
           r.min_data_quality = none ∧ r.pass_data_quality = none) ∧
        (14 ≤ i + 1 →
           (trailingWindow p 14 i).length = 14 ∧
           ((trailingWindow p 14 i).all (fun w => w.sales.isSome) = true →
             r.recent_sales_count =
               some ((trailingWindow p 14 i).map
                 (fun w => if 0 < w.sales.getD 0 then (1 : ℚ) else 0)).sum)) ∧
        (cfg.history_window ≤ i + 1 →
           (trailingWindow p cfg.history_window i).length = cfg.history_window ∧
           ((trailingWindow p cfg.history_window i).all
               (fun w => w.margin.isSome) = true →
             r.rolling_avg_margin =
               some (((trailingWindow p cfg.history_window i).map
                 (fun w => w.margin.getD 0)).sum / (cfg.history_window : ℚ))) ∧
           r.min_data_quality =
             some (min (min (min
               (((trailingWindow p cfg.history_window i).map
                 (fun w => notNullInd w.sales)).sum / (cfg.history_window : ℚ))
               (((trailingWindow p cfg.history_window i).map
                 (fun w => notNullInd w.inventory)).sum / (cfg.history_window : ℚ)))
               (((trailingWindow p cfg.history_window i).map
                 (fun w => notNullInd w.current_price)).sum / (cfg.history_window : ℚ)))
               (((trailingWindow p cfg.history_window i).map
                 (fun w => notNullInd w.cost)).sum / (cfg.history_window : ℚ)))) := by
  refine ⟨_, sfp_ok p cfg hcols hne, ?_⟩
  intro r hr
  rw [sfp_rows_get p cfg i hi] at hr
  injection hr with hr
  subst hr
  refine ⟨?_, ?_, ?_, ?_⟩
  · intro h14
    have hrc : recent_sales_count p i = none := by
      unfold recent_sales_count
      exact rollingSumAt_of_insufficient _ _ _ h14
    refine ⟨hrc, ?_⟩
    show pass_sales_recency p cfg i = none
    unfold pass_sales_recency optGe
    rw [hrc]
    rfl
  · intro hN
    have hm : rolling_avg_margin p cfg i = none := by
      unfold rolling_avg_margin
      exact rollingMeanAt_of_insufficient _ _ _ hN
    have hq : ∀ f : Row → Option ℚ, qualityRate p cfg f i = none := by
      intro f
      unfold qualityRate
      exact rollingMeanAt_of_insufficient _ _ _ hN
    have hmdq : min_data_quality p cfg i = none :=
      min_data_quality_insufficient p cfg i hN
    refine ⟨hm, ?_, hq Row.sales, hq Row.inventory, hq Row.current_price,
            hq Row.cost, hmdq, ?_⟩
    · show pass_profitability p cfg i = none
      unfold pass_profitability optGe
      rw [hm]
      rfl
    · show pass_data_quality p cfg i = none
      unfold pass_data_quality optGe
      rw [hmdq]
      rfl
  · intro h14
    refine ⟨trailingWindow_length p 14 i h14 hi, ?_⟩
    intro hall
    show recent_sales_count p i = _
    unfold recent_sales_count salesPosInd
    have hall2 : (trailingWindow p 14 i).all
        (fun w => (w.sales.map (fun s => if 0 < s then (1 : ℚ) else 0)).isSome)
          = true := by
      rw [List.all_eq_true] at hall ⊢
      intro w hw
      simpa using hall w hw
    rw [rollingSumAt_opt_eq p
      (fun w => w.sales.map (fun s => if 0 < s then (1 : ℚ) else 0)) 14 i
      h14 hi hall2]
    simp only [map_ind_getD]
  · intro hN
    refine ⟨trailingWindow_length p cfg.history_window i hN hi, ?_,
            min_data_quality_eq p cfg i hN hi⟩
    intro hall
    show rolling_avg_margin p cfg i = _
    unfold rolling_avg_margin
    exact rollingMeanAt_opt_eq p Row.margin cfg.history_window i hN hi hall

/-- Witness for C2 at a concrete one-row panel with the default
configuration. -/
theorem C2_witness :
    (requiredCols.all (fun c => W.wPanel.colNames.contains c) = true ∧
     W.wPanel.rows ≠ [] ∧ 0 < W.wPanel.rows.length) ∧
    (∃ out, should_forecast_product (Input.dataframe W.wPanel) W.defaultCfg =
        Except.ok out ∧
      ∀ r, out.rows[0]? = some r →
        (0 + 1 < 14 → r.recent_sales_count = none ∧ r.pass_sales_recency = none) ∧
        (0 + 1 < W.defaultCfg.history_window →
           r.rolling_avg_margin = none ∧ r.pass_profitability = none ∧
           qualityRate W.wPanel W.defaultCfg Row.sales 0 = none ∧
           qualityRate W.wPanel W.defaultCfg Row.inventory 0 = none ∧
           qualityRate W.wPanel W.defaultCfg Row.current_price 0 = none ∧
           qualityRate W.wPanel W.defaultCfg Row.cost 0 = none ∧
           r.min_data_quality = none ∧ r.pass_data_quality = none) ∧
        (14 ≤ 0 + 1 →
           (trailingWindow W.wPanel 14 0).length = 14 ∧
           ((trailingWindow W.wPanel 14 0).all (fun w => w.sales.isSome) = true →
             r.recent_sales_count =
               some ((trailingWindow W.wPanel 14 0).map
                 (fun w => if 0 < w.sales.getD 0 then (1 : ℚ) else 0)).sum)) ∧
        (W.defaultCfg.history_window ≤ 0 + 1 →
           (trailingWindow W.wPanel W.defaultCfg.history_window 0).length =
             W.defaultCfg.history_window ∧
           ((trailingWindow W.wPanel W.defaultCfg.history_window 0).all
               (fun w => w.margin.isSome) = true →
             r.rolling_avg_margin =
               some (((trailingWindow W.wPanel W.defaultCfg.history_window 0).map
                 (fun w => w.margin.getD 0)).sum /
                   (W.defaultCfg.history_window : ℚ))) ∧
           r.min_data_quality =
             some (min (min (min
               (((trailingWindow W.wPanel W.defaultCfg.history_window 0).map
                 (fun w => notNullInd w.sales)).sum /
                   (W.defaultCfg.history_window : ℚ))
               (((trailingWindow W.wPanel W.defaultCfg.history_window 0).map
                 (fun w => notNullInd w.inventory)).sum /
                   (W.defaultCfg.history_window : ℚ)))
               (((trailingWindow W.wPanel W.defaultCfg.history_window 0).map
                 (fun w => notNullInd w.current_price)).sum /
                   (W.defaultCfg.history_window : ℚ)))
               (((trailingWindow W.wPanel W.defaultCfg.history_window 0).map
                 (fun w => notNullInd w.cost)).sum /
                   (W.defaultCfg.history_window : ℚ))))) :=
  ⟨⟨by decide, by decide, by decide⟩,
   C2_trailing_window_semantics W.wPanel W.defaultCfg (by decide) (by decide)
     0 (by decide)⟩

/-- C6: min_data_quality is the row-wise minimum of the four per-field
rolling non-null rates, so it is bounded above by every single rate (one
poorly populated field sinks the score), and pass_data_quality compares
it against min_data_quality_pct, null propagating. -/
theorem C6_min_data_quality_row_min (p : RawPanel) (cfg : Config)
    (hcols : requiredCols.all (fun c => p.colNames.contains c) = true)
    (hne : p.rows ≠ []) (i : Nat) (hi : i < p.rows.length) :
    ∃ out, should_forecast_product (Input.dataframe p) cfg = Except.ok out ∧
      ∀ r, out.rows[i]? = some r →
        r.min_data_quality =
          minHorizontal
            [qualityRate p cfg Row.sales i, qualityRate p cfg Row.inventory i,
             qualityRate p cfg Row.current_price i, qualityRate p cfg Row.cost i] ∧
        r.pass_data_quality = optGe r.min_data_quality cfg.min_data_quality_pct ∧
        (cfg.history_window ≤ i + 1 →
          ∃ qs qi qp qc,
            qualityRate p cfg Row.sales i = some qs ∧
            qualityRate p cfg Row.inventory i = some qi ∧
            qualityRate p cfg Row.current_price i = some qp ∧
            qualityRate p cfg Row.cost i = some qc ∧
            r.min_data_quality = some (min (min (min qs qi) qp) qc) ∧
            min (min (min qs qi) qp) qc ≤ qs ∧
            min (min (min qs qi) qp) qc ≤ qi ∧
            min (min (min qs qi) qp) qc ≤ qp ∧
            min (min (min qs qi) qp) qc ≤ qc) := by
  refine ⟨_, sfp_ok p cfg hcols hne, ?_⟩
  intro r hr
  rw [sfp_rows_get p cfg i hi] at hr
  injection hr with hr
  subst hr
  refine ⟨rfl, rfl, ?_⟩
  intro hN
  refine ⟨_, _, _, _, qualityRate_eq p cfg Row.sales i hN hi,
          qualityRate_eq p cfg Row.inventory i hN hi,
          qualityRate_eq p cfg Row.current_price i hN hi,
          qualityRate_eq p cfg Row.cost i hN hi, ?_, ?_, ?_, ?_, ?_⟩
  · show min_data_quality p cfg i = _
    exact min_data_quality_eq p cfg i hN hi
  · exact le_trans (min_le_left _ _) (le_trans (min_le_left _ _) (min_le_left _ _))
  · exact le_trans (min_le_left _ _) (le_trans (min_le_left _ _) (min_le_right _ _))
  · exact le_trans (min_le_left _ _) (min_le_right _ _)
  · exact min_le_right _ _

/-- Witness for C6 at a concrete one-row panel with the default
configuration. -/
theorem C6_witness :
    (requiredCols.all (fun c => W.wPanel.colNames.contains c) = true ∧
     W.wPanel.rows ≠ [] ∧ 0 < W.wPanel.rows.length) ∧
    (∃ out, should_forecast_product (Input.dataframe W.wPanel) W.defaultCfg =
        Except.ok out ∧
      ∀ r, out.rows[0]? = some r →
        r.min_data_quality =
          minHorizontal
            [qualityRate W.wPanel W.defaultCfg Row.sales 0,
             qualityRate W.wPanel W.defaultCfg Row.inventory 0,
             qualityRate W.wPanel W.defaultCfg Row.current_price 0,
             qualityRate W.wPanel W.defaultCfg Row.cost 0] ∧
        r.pass_data_quality =
          optGe r.min_data_quality W.defaultCfg.min_data_quality_pct ∧
        (W.defaultCfg.history_window ≤ 0 + 1 →
          ∃ qs qi qp qc,
            qualityRate W.wPanel W.defaultCfg Row.sales 0 = some qs ∧
            qualityRate W.wPanel W.defaultCfg Row.inventory 0 = some qi ∧
            qualityRate W.wPanel W.defaultCfg Row.current_price 0 = some qp ∧
            qualityRate W.wPanel W.defaultCfg Row.cost 0 = some qc ∧
            r.min_data_quality = some (min (min (min qs qi) qp) qc) ∧
            min (min (min qs qi) qp) qc ≤ qs ∧
            min (min (min qs qi) qp) qc ≤ qi ∧
            min (min (min qs qi) qp) qc ≤ qp ∧
            min (min (min qs qi) qp) qc ≤ qc)) :=
  ⟨⟨by decide, by decide, by decide⟩,
   C6_min_data_quality_row_min W.wPanel W.defaultCfg (by decide) (by decide)
     0 (by decide)⟩

end PQ
